import Mathlib

/-!
Shallow embedding of `src/potassium/potassium.py` (the Potassium web
framework core): the request/response contract, the endpoint registry,
the mutual-exclusion execution gate with busy rejection, the background
task, and the single-slot coalescing event channel.

Python values are modelled by `PyVal`; a handler either returns a value
or raises an exception (`Outcome`).  Flask's `make_response` and
FastAPI's `JSONResponse` are modelled as abstract wire-response
constructors that record which library produced the response
(the `flavor` field) together with the status, headers and body the
code sets on them.  Concurrency is modelled sequentially: `handle_generic`
returns the wire response together with the lock state at return time and
the request handed to a spawned background task, if any; the background
task body (`task` in the source) is embedded as an event trace
(`taskTrace`) so that lock and channel operations can be counted and
replayed.
-/

/-- Python values as they cross the boundary of the core. -/
inductive PyVal where
  | none
  | bool (b : Bool)
  | int (n : Int)
  | str (s : String)
  | list (xs : List PyVal)
  | dict (kvs : List (String × PyVal))

/-- Test modelling Python `type(v) == dict`. -/
def PyVal.isDict : PyVal → Bool
  | .dict _ => true
  | _ => false

/-- The context dictionary built by `init` (opaque to the core). -/
abbrev Context := PyVal

/-- The `Request` class: wraps the parsed json payload. -/
structure Request where
  json : PyVal

/-- The `Response` class: a status code and a json payload. -/
structure Response where
  status : Int := 200
  json : PyVal := PyVal.dict []

/-- What a user handler function may return: a genuine `Response`
object, or any other Python value (modelling `type(out) != Response`). -/
inductive HandlerRet where
  | resp (r : Response)
  | val (v : PyVal)

/-- Outcome of running a Python function: normal return or a raised
exception carrying its message. -/
inductive Outcome (α : Type) where
  | ok (a : α)
  | exn (msg : String)

/-- Python attribute access `out.status` on a handler return value:
raises `AttributeError` unless the value is a `Response` object. -/
def HandlerRet.getStatus : HandlerRet → Outcome Int
  | .resp r => .ok r.status
  | .val _ => .exn "AttributeError: status"

/-- Python attribute access `out.json` on a handler return value. -/
def HandlerRet.getJson : HandlerRet → Outcome PyVal
  | .resp r => .ok r.json
  | .val _ => .exn "AttributeError: json"

/-- An entry of the endpoint registry (`Endpoint` class): the execution
kind tag (`"handler"` or `"background"`) and the wrapped function.  The
wrapper reads `self._context` at call time, so the function takes the
context explicitly. -/
structure Endpoint where
  type : String
  func : Context → Request → Outcome HandlerRet

/-- Python dict assignment `d[k] = v` on an association list: replaces
the binding if the key is present, otherwise appends it. -/
def dictSet {α : Type} : List (String × α) → String → α → List (String × α)
  | [], k, v => [(k, v)]
  | (k', v') :: rest, k, v =>
      if k' = k then (k, v) :: rest else (k', v') :: dictSet rest k v

/-- Python dict lookup `d[k]` (as an option, `none` when absent). -/
def dictGet {α : Type} : List (String × α) → String → Option α
  | [], _ => Option.none
  | (k', v') :: rest, k => if k' = k then some v' else dictGet rest k

/-- The wrapper installed by the `handler` decorator: calls the user
function with (context, request); if the call raises, the exception
propagates; on return it raises unless the result is a `Response`
object whose `json` is a dict, and otherwise returns the result. -/
def handlerWrapper (func : Context → Request → Outcome HandlerRet)
    (ctx : Context) (req : Request) : Outcome HandlerRet :=
  match func ctx req with
  | .exn m => .exn m
  | .ok out =>
    match out with
    | .val _ => .exn "Potassium Response object not returned"
    | .resp r =>
      if r.json.isDict then .ok (.resp r)
      else .exn "Potassium Response object json must be a dict"

/-- The wrapper installed by the `background` decorator: calls the user
function with (context, request) and returns its result unchanged (no
validation of any kind). -/
def backgroundWrapper (func : Context → Request → Outcome HandlerRet)
    (ctx : Context) (req : Request) : Outcome HandlerRet :=
  func ctx req

/-- The `Potassium` application object: name, backend selector and the
endpoint registry (`self._endpoints`, a dict keyed by route).  The
mutable lock and event channel are passed separately to the operations
that use them. -/
structure Potassium where
  name : String
  backend : String
  endpoints : List (String × Endpoint) := []
  context : Context := PyVal.dict []

/-- Registration performed by the `handler` decorator:
`self._endpoints[route] = Endpoint(type="handler", func=wrapper)`. -/
def Potassium.handlerReg (app : Potassium) (route : String)
    (func : Context → Request → Outcome HandlerRet) : Potassium :=
  { app with endpoints :=
      dictSet app.endpoints route ⟨"handler", handlerWrapper func⟩ }

/-- Registration performed by the `background` decorator:
`self._endpoints[route] = Endpoint(type="background", func=wrapper)`. -/
def Potassium.backgroundReg (app : Potassium) (route : String)
    (func : Context → Request → Outcome HandlerRet) : Potassium :=
  { app with endpoints :=
      dictSet app.endpoints route ⟨"background", backgroundWrapper func⟩ }

/-- A wire response: status code, headers, body, plus a record of which
library constructor built it (`"flask"` for `make_response`, `"fastapi"`
for `JSONResponse`). -/
structure WireResponse where
  status_code : Int
  headers : List (String × String)
  body : PyVal
  flavor : String

/-- Flask's `make_response(body)`: a fresh 200 response with the given
body and no custom headers. -/
def make_response (body : PyVal) : WireResponse :=
  ⟨200, [], body, "flask"⟩

/-- FastAPI's `JSONResponse(body)`: a fresh 200 response with the given
body and no custom headers. -/
def JSONResponse (body : PyVal) : WireResponse :=
  ⟨200, [], body, "fastapi"⟩

/-- Header assignment `res.headers[k] = v`. -/
def WireResponse.setHeader (r : WireResponse) (k v : String) : WireResponse :=
  { r with headers := dictSet r.headers k v }

/-- Status assignment `res.status_code = s`. -/
def WireResponse.setStatus (r : WireResponse) (s : Int) : WireResponse :=
  { r with status_code := s }

/-- The event channel `Queue(maxsize=1)` is modelled as the list of
unread items, oldest first.  `put_nowait` appends when below capacity
and raises `Full` otherwise; the second component reports whether the
put succeeded. -/
def queuePutNoWait (maxsize : Nat) (q : List Bool) (item : Bool) :
    List Bool × Bool :=
  if q.length < maxsize then (q ++ [item], true) else (q, false)

/-- The method `_write_event_chan`: `put(item, block=False)` on the
maxsize-1 queue, with `Full` silently swallowed. -/
def write_event_chan (q : List Bool) (item : Bool) : List Bool :=
  (queuePutNoWait 1 q item).1

/-- The method `_read_event_chan`: a blocking `get()`.  It is modelled
as a partial step: `none` means no value is available yet (the caller
stays blocked); otherwise the oldest value is returned and removed. -/
def read_event_chan (q : List Bool) : Option (Bool × List Bool) :=
  match q with
  | [] => Option.none
  | x :: xs => some (x, xs)

/-- The method `_is_working`: the non-blocking probe `self._lock.locked()`. -/
def is_working (lock : Bool) : Bool := lock

/-- Result of one call to `_handle_generic`: the wire response it
returns (`none` models Python falling off the end and returning `None`),
the lock state at the moment it returns, and the request handed to a
spawned background thread, if one was started. -/
structure GenericResult where
  response : Option WireResponse
  lockAfter : Bool
  spawned : Option Request

/-- The method `_handle_generic`, translated branch by branch.

Busy probe: if the lock is held, build an empty response
(`JSONResponse()` when the backend is not FastAPI, `make_response()`
otherwise — the constructor choice is recorded in `flavor` exactly as
written), set status 423 and the `X-Endpoint-Type` header to the
requested endpoint's kind, and return without touching the payload.

Blocking path (`endpoint.type == "handler"`): parse the payload, build a
`Request`, take the lock; inside the `try`, run the wrapped handler and
build the success response from `out.json` / `out.status`; any exception
reaches the bare `except`, which builds a 500 response whose body is the
formatted traceback.  The `with` statement releases the lock on both
returns.

Background path (`endpoint.type == "background"`): parse the payload,
build a `Request`, spawn the task thread (recorded in `spawned`; the
task body is `taskTrace` below) and immediately return
`make_response({"started": True})` with the kind header; the lock is
not touched on this path.

Any other endpoint type falls off the end (`response = none`). -/
def handle_generic (backend : String) (ctx : Context) (route : String)
    (endpoint : Endpoint) (lock : Bool) (raw : PyVal) : GenericResult :=
  if is_working lock then
    let res0 := if backend ≠ "FastAPI" then JSONResponse PyVal.none
                else make_response PyVal.none
    let res := (res0.setStatus 423).setHeader "X-Endpoint-Type" endpoint.type
    ⟨some res, lock, Option.none⟩
  else if endpoint.type = "handler" then
    let req := Request.mk raw
    match endpoint.func ctx req with
    | .ok out =>
      match out.getJson with
      | .ok j =>
        match out.getStatus with
        | .ok st =>
          let res0 := if backend = "FastAPI" then JSONResponse j
                      else make_response j
          let res := (res0.setStatus st).setHeader "X-Endpoint-Type" endpoint.type
          ⟨some res, false, Option.none⟩
        | .exn m =>
          let tb := "Traceback (most recent call last): " ++ m
          let res0 := if backend ≠ "FastAPI" then JSONResponse (PyVal.str tb)
                      else make_response (PyVal.str tb)
          let res := (res0.setStatus 500).setHeader "X-Endpoint-Type" endpoint.type
          ⟨some res, false, Option.none⟩
      | .exn m =>
        let tb := "Traceback (most recent call last): " ++ m
        let res0 := if backend ≠ "FastAPI" then JSONResponse (PyVal.str tb)
                    else make_response (PyVal.str tb)
        let res := (res0.setStatus 500).setHeader "X-Endpoint-Type" endpoint.type
        ⟨some res, false, Option.none⟩
    | .exn m =>
      let tb := "Traceback (most recent call last): " ++ m
      let res0 := if backend ≠ "FastAPI" then JSONResponse (PyVal.str tb)
                  else make_response (PyVal.str tb)
      let res := (res0.setStatus 500).setHeader "X-Endpoint-Type" endpoint.type
      ⟨some res, false, Option.none⟩
  else if endpoint.type = "background" then
    let req := Request.mk raw
    let res := (make_response (PyVal.dict [("started", PyVal.bool true)])).setHeader
      "X-Endpoint-Type" endpoint.type
    ⟨some res, lock, some req⟩
  else
    ⟨Option.none, lock, Option.none⟩

/-- Events performed by the background task thread: lock acquisition and
release, a call to `_write_event_chan`, and an exception escaping the
thread (`raise e` after the cleanup write). -/
inductive Ev where
  | acquire
  | release
  | publishCall
  | reraise
deriving DecidableEq, Repr

/-- The body of the local function `task` in `_handle_generic`, as the
trace of events it performs: take the lock; run the wrapped handler
inside the `try`; on an exception, call `_write_event_chan(True)` inside
the `except` and re-raise (the `with` then releases the lock and the
exception escapes the thread); on normal return, the `with` releases the
lock and `_write_event_chan(True)` is called after it. -/
def taskTrace (ctx : Context) (endpoint : Endpoint) (req : Request) : List Ev :=
  Ev.acquire ::
    (match endpoint.func ctx req with
     | .ok _ => [Ev.release, Ev.publishCall]
     | .exn _ => [Ev.publishCall, Ev.release, Ev.reraise])

/-- Number of `_write_event_chan` calls in a task trace. -/
def publishCount (tr : List Ev) : Nat :=
  (tr.filter (fun e => e = Ev.publishCall)).length

/-- Replay the channel writes of a task trace onto an event-channel
state (each `publishCall` performs `_write_event_chan(True)`). -/
def applyTrace (q : List Bool) : List Ev → List Bool
  | [] => q
  | Ev.publishCall :: rest => applyTrace (write_event_chan q true) rest
  | _ :: rest => applyTrace q rest

/-- Lock state after the task thread finishes, replayed from its trace. -/
def lockAfterTrace (lock : Bool) : List Ev → Bool
  | [] => lock
  | Ev.acquire :: rest => lockAfterTrace true rest
  | Ev.release :: rest => lockAfterTrace false rest
  | _ :: rest => lockAfterTrace lock rest

/-- Flask's `abort(404)`: a 404 response with no custom headers. -/
def abort404 : WireResponse :=
  ⟨404, [], PyVal.str "Not Found", "flask"⟩

/-- FastAPI's `raise HTTPException(status_code=404)`: a 404 response
with no custom headers. -/
def httpException404 : WireResponse :=
  ⟨404, [], PyVal.dict [("detail", PyVal.str "Not Found")], "fastapi"⟩

/-- The route handler installed by `_create_flask_app`: prepend the
leading slash, return the `abort(404)` response when the route is not
registered, and otherwise delegate to `_handle_generic`. -/
def flaskHandle (app : Potassium) (lock : Bool) (path : String)
    (raw : PyVal) : GenericResult :=
  let route := "/" ++ path
  match dictGet app.endpoints route with
  | Option.none => ⟨some abort404, lock, Option.none⟩
  | some ep => handle_generic app.backend app.context route ep lock raw

/-- The route handler installed by `_create_fastapi_app`: prepend the
leading slash, raise `HTTPException(404)` when the route is not
registered, and otherwise delegate to `_handle_generic` with the raw
body. -/
def fastapiHandle (app : Potassium) (lock : Bool) (path : String)
    (raw : PyVal) : GenericResult :=
  let route := "/" ++ path
  match dictGet app.endpoints route with
  | Option.none => ⟨some httpException404, lock, Option.none⟩
  | some ep => handle_generic app.backend app.context route ep lock raw

/-- Event-channel states reachable from the initial empty channel by any
interleaving of `_write_event_chan` calls and completed
`_read_event_chan` calls. -/
inductive ChanReachable : List Bool → Prop
  | init : ChanReachable []
  | publish (b : Bool) (q : List Bool) :
      ChanReachable q → ChanReachable (write_event_chan q b)
  | consume (b : Bool) (q : List Bool) :
      ChanReachable (b :: q) → ChanReachable q

/-! ## Helper lemmas -/

theorem dictGet_dictSet_self {α : Type} (d : List (String × α)) (k : String)
    (v : α) : dictGet (dictSet d k v) k = some v := by
  induction d with
  | nil => simp [dictSet, dictGet]
  | cons hd tl ih =>
    obtain ⟨k', v'⟩ := hd
    by_cases h : k' = k
    · simp [dictSet, dictGet, h]
    · simp [dictSet, dictGet, h, ih]

theorem chan_len_le (q : List Bool) (h : ChanReachable q) : q.length ≤ 1 := by
  induction h with
  | init => simp
  | publish b q _ ih =>
    by_cases hlt : q.length < 1
    · have hq : q = [] := by
        cases q with
        | nil => rfl
        | cons x xs => simp at hlt
      subst hq
      simp [write_event_chan, queuePutNoWait]
    · simp [write_event_chan, queuePutNoWait, hlt]
      exact ih
  | consume b q _ ih =>
    simp only [List.length_cons] at ih
    omega

/-! ## Claims -/

/-- C1: when the non-blocking busy probe observes the lock held, dispatch
returns immediately with status 423 and an X-Endpoint-Type marker equal
to the kind of the endpoint targeted by the rejected request itself; no
background task is spawned, and the result does not depend on the raw
payload or on the endpoint's handler function (the payload is neither
parsed nor forwarded and no handler is invoked). -/
theorem busy_reject_immediate_423 (backend : String) (ctx : Context)
    (route : String) (ep : Endpoint) (lock : Bool) (raw : PyVal)
    (hheld : is_working lock = true) :
    ∃ res, (handle_generic backend ctx route ep lock raw).response = some res ∧
      res.status_code = 423 ∧
      dictGet res.headers "X-Endpoint-Type" = some ep.type ∧
      (handle_generic backend ctx route ep lock raw).spawned = Option.none ∧
      ∀ (raw2 : PyVal) (f : Context → Request → Outcome HandlerRet),
        handle_generic backend ctx route ⟨ep.type, f⟩ lock raw2 =
          handle_generic backend ctx route ep lock raw := by
  simp only [is_working] at hheld
  subst hheld
  refine ⟨((if backend ≠ "FastAPI" then JSONResponse PyVal.none
      else make_response PyVal.none).setStatus 423).setHeader
      "X-Endpoint-Type" ep.type, rfl, rfl, ?_, rfl, fun raw2 f => rfl⟩
  simpa [WireResponse.setHeader] using
    dictGet_dictSet_self (((if backend ≠ "FastAPI" then JSONResponse PyVal.none
      else make_response PyVal.none).setStatus 423)).headers "X-Endpoint-Type" ep.type

theorem busy_reject_immediate_423_witness :
    ∃ res, (handle_generic "Flask" (PyVal.dict []) "/"
        ⟨"handler", fun _ _ => Outcome.ok (HandlerRet.val PyVal.none)⟩
        true PyVal.none).response = some res ∧
      res.status_code = 423 ∧
      dictGet res.headers "X-Endpoint-Type" = some "handler" ∧
      (handle_generic "Flask" (PyVal.dict []) "/"
        ⟨"handler", fun _ _ => Outcome.ok (HandlerRet.val PyVal.none)⟩
        true PyVal.none).spawned = Option.none ∧
      ∀ (raw2 : PyVal) (f : Context → Request → Outcome HandlerRet),
        handle_generic "Flask" (PyVal.dict []) "/" ⟨"handler", f⟩ true raw2 =
          handle_generic "Flask" (PyVal.dict []) "/"
            ⟨"handler", fun _ _ => Outcome.ok (HandlerRet.val PyVal.none)⟩
            true PyVal.none :=
  busy_reject_immediate_423 "Flask" (PyVal.dict []) "/"
    ⟨"handler", fun _ _ => Outcome.ok (HandlerRet.val PyVal.none)⟩
    true PyVal.none rfl

/-- C2: the background task body calls the event-channel write exactly
once, whether the wrapped handler returns normally or raises — never
zero times and never twice. -/
theorem background_publishes_exactly_once (ctx : Context) (ep : Endpoint)
    (req : Request) : publishCount (taskTrace ctx ep req) = 1 := by
  unfold taskTrace publishCount
  cases ep.func ctx req <;> rfl

/-- A concrete handler function returning Response(200, {}). -/
def okFunc : Context → Request → Outcome HandlerRet :=
  fun _ _ => Outcome.ok (HandlerRet.resp ⟨200, PyVal.dict []⟩)

/-- An app that registers a blocking endpoint and then a background
endpoint under the same route "/". -/
def appTwice : Potassium :=
  ((Potassium.mk "app" "Flask" [] (PyVal.dict [])).handlerReg "/" okFunc).backgroundReg
    "/" okFunc

/-- C3 counterexample: registering a second endpoint under an
already-registered route does not fail and does not keep the first
endpoint — after registering a blocking endpoint and then a background
endpoint under "/", the registry maps "/" to the background endpoint,
so the second registration replaced the first instead of failing with
DuplicateRoute. -/
theorem duplicate_registration_replaces_counterexample :
    (dictGet appTwice.endpoints "/").map Endpoint.type = some "background" ∧
    (dictGet appTwice.endpoints "/").map Endpoint.type ≠ some "handler" := by
  refine ⟨rfl, ?_⟩
  intro h
  rw [show (dictGet appTwice.endpoints "/").map Endpoint.type =
      some "background" from rfl] at h
  exact absurd (Option.some.inj h) (by decide)

/-- C3 (amended): registering a second endpoint under an
already-registered route does not fail with DuplicateRoute; the new
endpoint silently replaces the existing one (last registration wins),
in either registration order. -/
theorem duplicate_registration_last_wins (app : Potassium) (route : String)
    (f g : Context → Request → Outcome HandlerRet) :
    dictGet ((app.handlerReg route f).backgroundReg route g).endpoints route =
      some ⟨"background", backgroundWrapper g⟩ ∧
    dictGet ((app.backgroundReg route f).handlerReg route g).endpoints route =
      some ⟨"handler", handlerWrapper g⟩ := by
  constructor <;>
    simp [Potassium.handlerReg, Potassium.backgroundReg, dictGet_dictSet_self]

/-- C4: the event channel holds at most one unread signal in every
reachable state; publishing while the single slot is full is a
non-blocking no-op that silently drops the new publish; consume blocks
on an empty channel, and otherwise clears the slot and returns the
pending value; two publishes before any consume leave exactly one
pending signal. -/
theorem event_channel_single_slot :
    (∀ q : List Bool, ChanReachable q → q.length ≤ 1) ∧
    (∀ (q : List Bool) (b : Bool), 1 ≤ q.length → write_event_chan q b = q) ∧
    (∀ (b : Bool) (q : List Bool), read_event_chan (b :: q) = some (b, q)) ∧
    read_event_chan [] = Option.none ∧
    (∀ b1 b2 : Bool, write_event_chan (write_event_chan [] b1) b2 = [b1]) := by
  refine ⟨chan_len_le, ?_, fun b q => rfl, rfl, fun b1 b2 => rfl⟩
  intro q b h
  unfold write_event_chan queuePutNoWait
  rw [if_neg (by omega)]

theorem event_channel_single_slot_witness :
    List.length [true] ≤ 1 ∧ write_event_chan [true] false = [true] :=
  ⟨event_channel_single_slot.1 [true]
      (ChanReachable.publish true [] ChanReachable.init),
   event_channel_single_slot.2.1 [true] false (by decide)⟩

/-- C5: a Blocking dispatch whose handler raises returns a normal wire
response (the failure is absorbed, never propagated to the caller of
dispatch) with status 500 and a body carrying the formatted traceback of
the failure, and the lock is free when dispatch returns. -/
theorem blocking_handler_failure_500 (backend : String) (ctx : Context)
    (route : String) (f : Context → Request → Outcome HandlerRet)
    (lock : Bool) (raw : PyVal) (m : String)
    (hfree : is_working lock = false)
    (hraise : f ctx (Request.mk raw) = Outcome.exn m) :
    ∃ res, (handle_generic backend ctx route ⟨"handler", handlerWrapper f⟩
        lock raw).response = some res ∧
      res.status_code = 500 ∧
      res.body = PyVal.str ("Traceback (most recent call last): " ++ m) ∧
      (handle_generic backend ctx route ⟨"handler", handlerWrapper f⟩
        lock raw).lockAfter = false := by
  simp only [is_working] at hfree
  subst hfree
  by_cases hb : backend = "FastAPI"
  · subst hb
    simp [handle_generic, is_working, handlerWrapper, hraise,
      WireResponse.setHeader, WireResponse.setStatus, make_response,
      JSONResponse]
  · simp [handle_generic, is_working, handlerWrapper, hraise, hb,
      WireResponse.setHeader, WireResponse.setStatus, make_response,
      JSONResponse]

/-- A concrete handler function that always raises. -/
def raisingFunc : Context → Request → Outcome HandlerRet :=
  fun _ _ => Outcome.exn "boom"

theorem blocking_handler_failure_500_witness :
    ∃ res, (handle_generic "Flask" (PyVal.dict []) "/"
        ⟨"handler", handlerWrapper raisingFunc⟩ false PyVal.none).response =
          some res ∧
      res.status_code = 500 ∧
      res.body = PyVal.str ("Traceback (most recent call last): " ++ "boom") ∧
      (handle_generic "Flask" (PyVal.dict []) "/"
        ⟨"handler", handlerWrapper raisingFunc⟩ false PyVal.none).lockAfter =
          false :=
  blocking_handler_failure_500 "Flask" (PyVal.dict []) "/" raisingFunc
    false PyVal.none "boom" rfl rfl

/-- C6: a Blocking dispatch whose handler returns a value that is not a
Response object, or a Response whose json payload is not a dict, yields
wire status 500 with a traceback body — surfaced exactly like an
unexpected handler failure — and the lock is free when dispatch
returns. -/
theorem contract_violation_500 (backend : String) (ctx : Context)
    (route : String) (f : Context → Request → Outcome HandlerRet)
    (lock : Bool) (raw : PyVal)
    (hfree : is_working lock = false)
    (hbad : (∃ v, f ctx (Request.mk raw) = Outcome.ok (HandlerRet.val v)) ∨
      (∃ r, f ctx (Request.mk raw) = Outcome.ok (HandlerRet.resp r) ∧
        r.json.isDict = false)) :
    ∃ res, (handle_generic backend ctx route ⟨"handler", handlerWrapper f⟩
        lock raw).response = some res ∧
      res.status_code = 500 ∧
      (∃ m, res.body =
        PyVal.str ("Traceback (most recent call last): " ++ m)) ∧
      (handle_generic backend ctx route ⟨"handler", handlerWrapper f⟩
        lock raw).lockAfter = false := by
  simp only [is_working] at hfree
  subst hfree
  rcases hbad with ⟨v, hv⟩ | ⟨r, hr, hdict⟩ <;> by_cases hb : backend = "FastAPI"
  · subst hb
    simp [handle_generic, is_working, handlerWrapper, hv,
      WireResponse.setHeader, WireResponse.setStatus, make_response,
      JSONResponse]
    exact ⟨"Potassium Response object not returned", rfl⟩
  · simp [handle_generic, is_working, handlerWrapper, hv, hb,
      WireResponse.setHeader, WireResponse.setStatus, make_response,
      JSONResponse]
    exact ⟨"Potassium Response object not returned", rfl⟩
  · subst hb
    simp [handle_generic, is_working, handlerWrapper, hr, hdict,
      WireResponse.setHeader, WireResponse.setStatus, make_response,
      JSONResponse]
    exact ⟨"Potassium Response object json must be a dict", rfl⟩
  · simp [handle_generic, is_working, handlerWrapper, hr, hdict, hb,
      WireResponse.setHeader, WireResponse.setStatus, make_response,
      JSONResponse]
    exact ⟨"Potassium Response object json must be a dict", rfl⟩

/-- A concrete handler function returning a bare int (not a Response). -/
def intFunc : Context → Request → Outcome HandlerRet :=
  fun _ _ => Outcome.ok (HandlerRet.val (PyVal.int 7))

theorem contract_violation_500_witness :
    ∃ res, (handle_generic "Flask" (PyVal.dict []) "/"
        ⟨"handler", handlerWrapper intFunc⟩ false PyVal.none).response =
          some res ∧
      res.status_code = 500 ∧
      (∃ m, res.body =
        PyVal.str ("Traceback (most recent call last): " ++ m)) ∧
      (handle_generic "Flask" (PyVal.dict []) "/"
        ⟨"handler", handlerWrapper intFunc⟩ false PyVal.none).lockAfter =
          false :=
  contract_violation_500 "Flask" (PyVal.dict []) "/" intFunc false PyVal.none
    rfl (Or.inl ⟨PyVal.int 7, rfl⟩)

/-- C7: a FireAndForget dispatch accepted when the gate is free returns,
under every backend, a wire response with status 200 and body exactly
the dict containing "started" mapped to true; the response is the same
whatever the endpoint's handler function is, so it is built and returned
without running (or waiting on) the handler body. -/
theorem background_ack_started (backend : String) (ctx : Context)
    (route : String) (f : Context → Request → Outcome HandlerRet)
    (lock : Bool) (raw : PyVal)
    (hfree : is_working lock = false) :
    ∃ res, (handle_generic backend ctx route ⟨"background", f⟩
        lock raw).response = some res ∧
      res.status_code = 200 ∧
      res.body = PyVal.dict [("started", PyVal.bool true)] ∧
      dictGet res.headers "X-Endpoint-Type" = some "background" ∧
      ∀ g : Context → Request → Outcome HandlerRet,
        (handle_generic backend ctx route ⟨"background", g⟩
          lock raw).response = some res := by
  simp only [is_working] at hfree
  subst hfree
  exact ⟨(make_response (PyVal.dict [("started", PyVal.bool true)])).setHeader
    "X-Endpoint-Type" "background", rfl, rfl, rfl, rfl, fun g => rfl⟩

theorem background_ack_started_witness :
    ∃ res, (handle_generic "FastAPI" (PyVal.dict []) "/train"
        ⟨"background", backgroundWrapper intFunc⟩ false PyVal.none).response =
          some res ∧
      res.status_code = 200 ∧
      res.body = PyVal.dict [("started", PyVal.bool true)] ∧
      dictGet res.headers "X-Endpoint-Type" = some "background" ∧
      ∀ g : Context → Request → Outcome HandlerRet,
        (handle_generic "FastAPI" (PyVal.dict []) "/train"
          ⟨"background", g⟩ false PyVal.none).response = some res :=
  background_ack_started "FastAPI" (PyVal.dict []) "/train"
    (backgroundWrapper intFunc) false PyVal.none rfl

/-- C8: a Blocking dispatch accepted when the gate is free, whose
handler returns a Response carrying a dict payload, yields a wire
response whose status and body equal that Response's status and payload,
and the lock is free when dispatch returns. -/
theorem blocking_success_passthrough (backend : String) (ctx : Context)
    (route : String) (f : Context → Request → Outcome HandlerRet)
    (lock : Bool) (raw : PyVal) (st : Int) (j : PyVal)
    (hfree : is_working lock = false)
    (hret : f ctx (Request.mk raw) =
      Outcome.ok (HandlerRet.resp ⟨st, j⟩))
    (hdict : j.isDict = true) :
    ∃ res, (handle_generic backend ctx route ⟨"handler", handlerWrapper f⟩
        lock raw).response = some res ∧
      res.status_code = st ∧
      res.body = j ∧
      (handle_generic backend ctx route ⟨"handler", handlerWrapper f⟩
        lock raw).lockAfter = false := by
  simp only [is_working] at hfree
  subst hfree
  by_cases hb : backend = "FastAPI"
  · subst hb
    simp [handle_generic, is_working, handlerWrapper, hret, hdict,
      HandlerRet.getJson, HandlerRet.getStatus, WireResponse.setHeader,
      WireResponse.setStatus, make_response, JSONResponse]
  · simp [handle_generic, is_working, handlerWrapper, hret, hdict, hb,
      HandlerRet.getJson, HandlerRet.getStatus, WireResponse.setHeader,
      WireResponse.setStatus, make_response, JSONResponse]

/-- A concrete handler function returning
Response(status=200, json={"result": 42}). -/
def resultFunc : Context → Request → Outcome HandlerRet :=
  fun _ _ =>
    Outcome.ok (HandlerRet.resp ⟨200, PyVal.dict [("result", PyVal.int 42)]⟩)

theorem blocking_success_passthrough_witness :
    ∃ res, (handle_generic "Flask" (PyVal.dict []) "/predict"
        ⟨"handler", handlerWrapper resultFunc⟩ false PyVal.none).response =
          some res ∧
      res.status_code = 200 ∧
      res.body = PyVal.dict [("result", PyVal.int 42)] ∧
      (handle_generic "Flask" (PyVal.dict []) "/predict"
        ⟨"handler", handlerWrapper resultFunc⟩ false PyVal.none).lockAfter =
          false :=
  blocking_success_passthrough "Flask" (PyVal.dict []) "/predict" resultFunc
    false PyVal.none 200 (PyVal.dict [("result", PyVal.int 42)]) rfl rfl rfl

/-- Looking up a header that `setHeader` just wrote always succeeds. -/
theorem dictGet_setHeader (r : WireResponse) (k v : String) :
    dictGet (r.setHeader k v).headers k = some v := by
  simp [WireResponse.setHeader, dictGet_dictSet_self]

/-- The app with an empty endpoint registry. -/
def emptyApp : Potassium := Potassium.mk "app" "Flask" [] (PyVal.dict [])

/-- C9 counterexample: the 404 response produced for an unregistered
route by the Flask adapter (`abort(404)`) carries no X-Endpoint-Type
marker, so not every wire response carries a kind marker. -/
theorem response_404_lacks_kind_marker :
    ∃ res, (flaskHandle emptyApp false "missing" PyVal.none).response =
        some res ∧
      dictGet res.headers "X-Endpoint-Type" = Option.none ∧
      res.status_code = 404 :=
  ⟨abort404, rfl, rfl, rfl⟩

/-- C9 (amended): every wire response produced by the execution gate
itself (`_handle_generic`: the 423 busy rejection, the blocking success
and failure responses, and the background started acknowledgment)
carries the X-Endpoint-Type marker naming the requested endpoint's kind;
the 404 response for an unregistered route is produced outside the gate
by `abort` / `HTTPException` and carries no such marker. -/
theorem gate_responses_carry_kind_marker (backend : String) (ctx : Context)
    (route : String) (ep : Endpoint) (lock : Bool) (raw : PyVal)
    (res : WireResponse)
    (h : (handle_generic backend ctx route ep lock raw).response = some res) :
    dictGet res.headers "X-Endpoint-Type" = some ep.type := by
  simp only [handle_generic] at h
  repeat' split at h
  all_goals
    first
    | (injection h with h; subst h; exact dictGet_setHeader _ _ _)
    | simp at h

theorem gate_responses_carry_kind_marker_witness :
    dictGet ((((make_response
        (PyVal.dict [("started", PyVal.bool true)])).setHeader
        "X-Endpoint-Type" "background")).headers) "X-Endpoint-Type" =
      some "background" :=
  gate_responses_carry_kind_marker "Flask" (PyVal.dict []) "/"
    ⟨"background", backgroundWrapper intFunc⟩ false PyVal.none
    ((make_response (PyVal.dict [("started", PyVal.bool true)])).setHeader
      "X-Endpoint-Type" "background") rfl

/-- C10: a FireAndForget handler's return value is never validated
against the Response/dict contract: the background wrapper passes the
user function's result through unchanged, the task completes its normal
path (no exception, so no ContractViolation and no 500), still
publishing the completion signal exactly once, and the caller still
receives the 200 started acknowledgment. -/
theorem background_return_never_validated (backend : String) (ctx : Context)
    (route : String) (lock : Bool) (raw : PyVal)
    (f : Context → Request → Outcome HandlerRet) (ret : HandlerRet)
    (hfree : is_working lock = false)
    (hret : f ctx (Request.mk raw) = Outcome.ok ret) :
    backgroundWrapper f ctx (Request.mk raw) = Outcome.ok ret ∧
    taskTrace ctx ⟨"background", backgroundWrapper f⟩ (Request.mk raw) =
      [Ev.acquire, Ev.release, Ev.publishCall] ∧
    publishCount (taskTrace ctx ⟨"background", backgroundWrapper f⟩
      (Request.mk raw)) = 1 ∧
    ∃ res, (handle_generic backend ctx route
        ⟨"background", backgroundWrapper f⟩ lock raw).response = some res ∧
      res.status_code = 200 ∧
      res.body = PyVal.dict [("started", PyVal.bool true)] := by
  simp only [is_working] at hfree
  subst hfree
  refine ⟨hret, ?_, ?_, ?_⟩
  · simp [taskTrace, backgroundWrapper, hret]
  · simp [taskTrace, publishCount, backgroundWrapper, hret, List.filter]
  · exact ⟨_, rfl, rfl, rfl⟩

theorem background_return_never_validated_witness :
    backgroundWrapper intFunc (PyVal.dict []) (Request.mk PyVal.none) =
      Outcome.ok (HandlerRet.val (PyVal.int 7)) ∧
    taskTrace (PyVal.dict []) ⟨"background", backgroundWrapper intFunc⟩
      (Request.mk PyVal.none) = [Ev.acquire, Ev.release, Ev.publishCall] ∧
    publishCount (taskTrace (PyVal.dict [])
      ⟨"background", backgroundWrapper intFunc⟩ (Request.mk PyVal.none)) = 1 ∧
    ∃ res, (handle_generic "Flask" (PyVal.dict []) "/"
        ⟨"background", backgroundWrapper intFunc⟩ false PyVal.none).response =
          some res ∧
      res.status_code = 200 ∧
      res.body = PyVal.dict [("started", PyVal.bool true)] :=
  background_return_never_validated "Flask" (PyVal.dict []) "/" false
    PyVal.none intFunc (HandlerRet.val (PyVal.int 7)) rfl rfl
